import Mathlib

/-!
Verification development for the TKGM WFS scraper (barisariburnu/python-tkgm).

The relevant parts of the Python source are shallowly embedded as executable
Lean definitions and the specification's testable properties are settled as
theorems about those definitions.

Conventions used throughout:
* Calendar dates are day numbers (`Nat`); advancing one calendar day is `+ 1`.
* Coordinates are exact pairs `Int × Int`.  The source stores coordinates as
  Python floats but performs no arithmetic on them in the logic modelled here
  (parsing, ring closure, WKT construction only move coordinates around);
  the CRS reprojection itself is an external library call and is modelled as
  an opaque parameter function.
* Database effects are modelled as explicit state (lists of rows); external
  failures (a record's SQL INSERT raising, the HTTP layer's outcome per
  attempt, the settings read raising) are modelled as oracle parameters,
  since the corresponding Python code catches arbitrary exceptions raised by
  those calls.
-/

namespace TKGM

/-! ## Fetcher: `TKGMClient.fetch_features` (src/client.py, lines 105-233)

One call of `fetch_features` runs a retry loop: `while self.running and
attempt < self.max_retries`.  Each iteration issues one HTTP attempt whose
outcome we model abstractly:

* `success`      — 2xx response; the body is read, one row is written to the
                   `tk_logs` audit table via `insert_log`, and the content is
                   returned (content itself is irrelevant to the claims).
* `timeout`      — `requests.exceptions.Timeout`: sleep `retry_delay` if more
                   attempts remain, then retry.
* `httpError`    — `raise_for_status` raised; status 500 with the substring
                   "limit" in the body sets the daily-quota flag and returns
                   `None`; other 4xx break immediately; 5xx retry.
* `connError`    — `requests.exceptions.ConnectionError`: like `timeout`.
* `otherError`   — the final generic `except Exception` branch: break.

The `running` flag stays `true` here (the fetch-level cancellation path is
not exercised by any claim).
-/

inductive AttemptOutcome where
  | success
  | timeout
  | httpError (status : Nat) (body : String)
  | connError
  | otherError
  deriving DecidableEq

structure FetchConfig where
  maxRetries : Nat
  retryDelay : Nat
  deriving DecidableEq

/-- `__init__` of `TKGMClient`: `self.retry_delay = 5`, `self.max_retries = 10`. -/
def defaultFetchConfig : FetchConfig := ⟨10, 5⟩

/-- `"limit" in response_text.lower()` (src/client.py line 192). -/
def hasLimitKeyword (body : String) : Bool :=
  2 ≤ (body.toLower.splitOn "limit").length

/-- Observable trace of one `fetch_features` call. `logRows` counts
`insert_log` calls (rows appended to `tk_logs`); `sleeps` counts
`time.sleep(self.retry_delay)` calls; `success = true` iff the call returned
the response content (rather than `None`). -/
structure FetchTrace where
  attempts : Nat
  sleeps : Nat
  sleepTime : Nat
  logRows : Nat
  success : Bool
  quotaFlagSet : Bool
  deriving DecidableEq

/-- The retry loop body of `fetch_features`.  `fuel` is the number of loop
iterations still allowed by the guard `attempt < self.max_retries`; the
caller starts it at `cfg.maxRetries` with `attempts = 0`, so `fuel = 0`
exactly when the guard fails. -/
def fetchGo (cfg : FetchConfig) (outcome : Nat → AttemptOutcome) :
    Nat → FetchTrace → FetchTrace
  | 0, t => t
  | fuel + 1, t =>
    let attempt := t.attempts + 1
    match outcome attempt with
    | .success =>
        { t with attempts := attempt, logRows := t.logRows + 1, success := true }
    | .timeout =>
        if attempt < cfg.maxRetries then
          fetchGo cfg outcome fuel
            { t with attempts := attempt, sleeps := t.sleeps + 1,
                     sleepTime := t.sleepTime + cfg.retryDelay }
        else
          fetchGo cfg outcome fuel { t with attempts := attempt }
    | .connError =>
        if attempt < cfg.maxRetries then
          fetchGo cfg outcome fuel
            { t with attempts := attempt, sleeps := t.sleeps + 1,
                     sleepTime := t.sleepTime + cfg.retryDelay }
        else
          fetchGo cfg outcome fuel { t with attempts := attempt }
    | .httpError s body =>
        if s = 500 ∧ hasLimitKeyword body then
          { t with attempts := attempt, quotaFlagSet := true }
        else if 400 ≤ s ∧ s < 500 then
          { t with attempts := attempt }
        else if attempt < cfg.maxRetries then
          fetchGo cfg outcome fuel
            { t with attempts := attempt, sleeps := t.sleeps + 1,
                     sleepTime := t.sleepTime + cfg.retryDelay }
        else
          fetchGo cfg outcome fuel { t with attempts := attempt }
    | .otherError =>
        { t with attempts := attempt }

/-- `fetch_features`: attempt counter starts at 0, loop guard
`attempt < self.max_retries`. -/
def fetch_features (cfg : FetchConfig) (outcome : Nat → AttemptOutcome) : FetchTrace :=
  fetchGo cfg outcome cfg.maxRetries ⟨0, 0, 0, 0, false, false⟩

/-- An attempt outcome on which the loop retries (after a sleep, when
attempts remain): timeout, connection failure, or a 5xx HTTP status whose
body does not trigger the status-500 quota check. -/
def retryableFailure : AttemptOutcome → Bool
  | .timeout => true
  | .connError => true
  | .httpError s body =>
      500 ≤ s && s < 600 && !(s == 500 && hasLimitKeyword body)
  | _ => false

/-! ## Daily-quota flag (src/database/repositories/settings_repository.py)

The flag is the `query_date` of the `tk_settings` row whose `scrape_type` is
`daily_limit_reached`; reading it can raise.  `is_daily_limit_reached`
(lines 114-155) returns `False` when no row exists, when the stored date is
not today, and — via its `except` clause — whenever the read raises. -/

/-- `SettingsRepository.is_daily_limit_reached`.  `flagRead` is the result of
the SQL read: `.error ()` models the `except Exception` path, `.ok none` the
absent row, `.ok (some d)` a stored flag date `d`. -/
def is_daily_limit_reached (flagRead : Except Unit (Option Nat)) (today : Nat) : Bool :=
  match flagRead with
  | .error _ => false
  | .ok none => false
  | .ok (some d) => d == today

/-- `SettingsRepository.set_daily_limit_reached`: stores today's date as the
flag row's `query_date`; the value returned here is the flag state a
subsequent read observes. -/
def set_daily_limit_reached (today : Nat) : Option Nat :=
  some today

/-! ## Daily sync loop: `TKGMScraper.sync_daily_parcels` (src/scraper.py, lines 230-378)

The loop state is the pair `(current_date, current_index)`.  One iteration
fetches a page and reacts to its outcome; `update_setting(query_date=…,
start_index=…, scrape_type=daily_sync)` calls are the cursor saves.  Page
outcomes, as the code distinguishes them:

* `fetchFail`     — `fetch_features` returned `None` (line 270): `break`.
* `membersEmpty`  — `parse_wfs_xml` found 0 feature members (line 284):
                    advance the date, reset the index, `continue`; no save.
* `featuresEmpty` — members found but `process_parcel_wfs_response` produced
                    no entities (line 296): advance the date, reset the
                    index, `continue`; no save.  (The `else` branch at lines
                    359-365, which would save the advanced cursor, is
                    unreachable: line 296 already `continue`d on the empty
                    list, so `all_features` is non-empty at line 307.)
* `processError`  — `parse_wfs_xml`/processing raised (line 367) or
                    `insert_parcels` raised (line 355): `break`, no save.
* `ok found saved`— `insert_parcels` returned `saved` for a page of `found`
                    processed entities: increment the index by
                    `max_features`, save `(date, index)`, then if
                    `found < max_features` advance the date and reset the
                    index (in memory only).
* `interrupted`   — the SIGINT/SIGTERM handler (`_signal_handler`, lines
                    130-149) ran during this iteration: it sets
                    `self.running = False` and then `raise KeyboardInterrupt`,
                    which is not an `Exception` subclass, so it unwinds past
                    every `except Exception` clause and past line 373.

After the loop (normal exit or `break`) line 373 always performs one final
`update_setting` with the in-memory cursor — except on `KeyboardInterrupt`,
which skips it.
-/

structure Cursor where
  date : Nat
  idx : Nat
  deriving DecidableEq

inductive PageOutcome where
  | fetchFail
  | membersEmpty
  | featuresEmpty
  | processError
  | ok (found saved : Nat)
  | interrupted
  deriving DecidableEq

/-- Saves performed by one loop iteration, the next in-memory cursor, and
whether the iteration `break`s out of the loop.  (`interrupted` is handled
one level up, in `dailyRun`, because it aborts the whole function.) -/
structure StepResult where
  saves : List Cursor
  next : Cursor
  exits : Bool
  deriving DecidableEq

/-- One non-interrupted iteration of the `while` loop of
`sync_daily_parcels`, at cursor `st`, with page size `maxF`
(`settings.MAX_FEATURES`). -/
def dailyStep (maxF : Nat) (st : Cursor) : PageOutcome → StepResult
  | .fetchFail => ⟨[], st, true⟩
  | .membersEmpty => ⟨[], ⟨st.date + 1, 0⟩, false⟩
  | .featuresEmpty => ⟨[], ⟨st.date + 1, 0⟩, false⟩
  | .processError => ⟨[], st, true⟩
  | .ok found _saved =>
      let idx := st.idx + maxF
      if found < maxF then
        ⟨[⟨st.date, idx⟩], ⟨st.date + 1, 0⟩, false⟩
      else
        ⟨[⟨st.date, idx⟩], ⟨st.date, idx⟩, false⟩
  | .interrupted => ⟨[], st, true⟩

/-- Observable outcome of one `sync_daily_parcels` run: the sequence of
cursor saves (`update_setting` calls, in order, including the final one at
line 373 when it is reached), the in-memory cursor when control leaves the
function, the number of `fetch_features` calls, and whether the run was
aborted by the signal handler's `KeyboardInterrupt`. -/
structure RunResult where
  saves : List Cursor
  final : Cursor
  fetches : Nat
  interrupted : Bool
  deriving DecidableEq

/-- The `while current_date < end_date and self.running` loop plus the final
save at line 373.  The iteration outcomes are supplied as a list: the loop
runs while outcomes remain (the list length plays the role of the
`current_date < end_date` bound); an exhausted list is the guard failing.
`interrupted` models the signal arriving before that iteration's fetch. -/
def dailyRun (maxF : Nat) (st : Cursor) : List PageOutcome → RunResult
  | [] => ⟨[st], st, 0, false⟩
  | .interrupted :: _ => ⟨[], st, 0, true⟩
  | p :: rest =>
      let r := dailyStep maxF st p
      if r.exits then
        ⟨r.saves ++ [r.next], r.next, 1, false⟩
      else
        let rr := dailyRun maxF r.next rest
        ⟨r.saves ++ rr.saves, rr.final, 1 + rr.fetches, rr.interrupted⟩

/-- Result of one `sync_daily_parcels` invocation: either the quota guard at
lines 234-238 returned before anything else happened, or the loop ran. -/
inductive SyncResult where
  | quotaHalted
  | ran (r : RunResult)
  deriving DecidableEq

/-- `sync_daily_parcels`: the daily-limit guard (lines 234-238) runs first
and returns before any `TKGMClient` request when the flag is set for today;
otherwise the paginated loop runs. -/
def sync_daily_parcels (flagRead : Except Unit (Option Nat)) (today : Nat)
    (maxF : Nat) (st : Cursor) (pages : List PageOutcome) : SyncResult :=
  if is_daily_limit_reached flagRead today then .quotaHalted
  else .ran (dailyRun maxF st pages)

/-- Number of network requests (`fetch_features` calls) a sync invocation
issues. -/
def fetchCount : SyncResult → Nat
  | .quotaHalted => 0
  | .ran r => r.fetches

/-! ## Failed-Record Store (src/database/repositories/failed_records_repository.py)

One row of `tk_failed_records`.  The table carries
`UNIQUE(entity_type, entity_id, status)` (src/database/schema.py line 197);
`insert_failed_record` (lines 21-72) issues a plain INSERT with
`ON CONFLICT (entity_type, entity_id, status) DO NOTHING`, storing
`status = 'failed'` and the schema default `retry_count = 0`. -/

structure FailedRecord where
  entityType : String
  entityId : String
  rawData : String
  errorType : String
  errorMessage : String
  retryCount : Nat
  status : String
  deriving DecidableEq

/-- Whether `tbl` already holds a row with this `(entity_type, entity_id,
status)` triple — the condition under which the INSERT's
`ON CONFLICT … DO NOTHING` fires. -/
def hasFailedTriple (tbl : List FailedRecord) (etype eid status : String) : Bool :=
  tbl.any fun r => r.entityType == etype && r.entityId == eid && r.status == status

/-- `FailedRecordsRepository.insert_failed_record`: INSERT … ON CONFLICT
(entity_type, entity_id, status) DO NOTHING, with `status = 'failed'` and
`retry_count` left at its schema default 0.  The `except` path (the database
itself failing) is outside every claim and is not modelled: the call returns
the new table state. -/
def insert_failed_record (tbl : List FailedRecord)
    (entityType rawData errorType errorMessage entityId : String) :
    List FailedRecord :=
  if hasFailedTriple tbl entityType entityId "failed" then tbl
  else tbl ++ [⟨entityType, entityId, rawData, errorType, errorMessage, 0, "failed"⟩]

/-- Modelled from the spec: the Failed-Record Store contract of §4.7 — "if a
row for `(entityType, entityId, status=failed)` already exists, update its
retry metadata rather than inserting a duplicate".  This definition follows
the spec's words (incrementing the existing row's retry count and refreshing
its error message); it exists only to be compared against the source-derived
`insert_failed_record` above. -/
def insert_failed_record_specUpdate (tbl : List FailedRecord)
    (entityType rawData errorType errorMessage entityId : String) :
    List FailedRecord :=
  if hasFailedTriple tbl entityType entityId "failed" then
    tbl.map fun r =>
      if r.entityType == entityType && r.entityId == entityId && r.status == "failed" then
        { r with retryCount := r.retryCount + 1,
                 errorType := errorType, errorMessage := errorMessage }
      else r
  else tbl ++ [⟨entityType, entityId, rawData, errorType, errorMessage, 0, "failed"⟩]

/-- No two rows of the table share an `(entity_type, entity_id, status)`
triple — the `UNIQUE(entity_type, entity_id, status)` constraint of
`tk_failed_records`. -/
def UniqueTriples (tbl : List FailedRecord) : Prop :=
  tbl.Pairwise fun a b =>
    ¬(a.entityType = b.entityType ∧ a.entityId = b.entityId ∧ a.status = b.status)

instance (tbl : List FailedRecord) : Decidable (UniqueTriples tbl) := by
  unfold UniqueTriples
  exact List.instDecidablePairwise tbl

/-! ## Upsert Engine: `ParcelRepository.insert_parcels`
(src/database/repositories/parcel_repository.py, lines 24-222)

A decoded parcel entity, reduced to the fields the control flow of
`insert_parcels` inspects: `fid` (skip guard at line 54), `wkt` (geometry
guard at lines 60-79) and the natural key `(tapukimlikno, tapuzeminref)`
used by `ON CONFLICT … DO UPDATE` (line 100).  The remaining attribute
columns travel with the row unchanged and are irrelevant to every claim, so
the stored table row is modelled as the feature itself. -/

structure ParcelFeature where
  fid : Option String
  wkt : Option String
  tapukimlikno : Option String
  tapuzeminref : Option String
  deriving DecidableEq

/-- `(tapukimlikno, tapuzeminref)` — the conflict key of `tk_parsel`. -/
def parcelKey (f : ParcelFeature) : Option String × Option String :=
  (f.tapukimlikno, f.tapuzeminref)

/-- The single-record INSERT … ON CONFLICT (tapukimlikno, tapuzeminref)
DO UPDATE of line 83: replace the row with the matching natural key, or
append. -/
def upsertParcel (tbl : List ParcelFeature) (f : ParcelFeature) : List ParcelFeature :=
  if tbl.any (fun r => decide (parcelKey r = parcelKey f)) then
    tbl.map fun r => if parcelKey r = parcelKey f then f else r
  else tbl ++ [f]

/-- `if 'fid' not in feature or not feature['fid']` (line 54): a missing or
falsy (empty-string) fid makes the record a skip. -/
def goodFid : Option String → Bool
  | none => false
  | some s => !(s == "")

/-- `str(feature.get('fid', 'unknown'))`, as passed for `entity_id` at lines
74/175/191;  a `None` fid would stringify to "None", but every path that
reaches a failed-record insert has already passed the fid guard. -/
def fidStr (f : ParcelFeature) : String :=
  match f.fid with
  | some s => s
  | none => "None"

/-- Stand-in for `json.dumps(raw_data)` (an external library call): any
injective-enough textual encoding works, since no claim inspects the
payload. -/
def jsonOfFeature (f : ParcelFeature) : String :=
  "fid=" ++ fidStr f ++ ";wkt=" ++ (f.wkt.getD "null")
    ++ ";tapukimlikno=" ++ (f.tapukimlikno.getD "null")
    ++ ";tapuzeminref=" ++ (f.tapuzeminref.getD "null")

/-- Database state touched by `insert_parcels`: the `tk_parsel` rows and the
`tk_failed_records` rows. -/
structure PState where
  parcels : List ParcelFeature
  failed : List FailedRecord
  deriving DecidableEq

/-- In-flight state of the `insert_parcels` loop.  All parcel INSERTs share
the one psycopg2 connection acquired at line 45, inside one transaction with
no savepoints, so `pending` is the `tk_parsel` content *as visible inside
that open transaction* — it becomes real only if the final commit succeeds.
`aborted` is the PostgreSQL transaction status: once any INSERT on this
connection raises, the transaction is in the failed (aborted) state and
every further `cursor.execute` on it raises `InFailedSqlTransaction`.
`failed` is `tk_failed_records`: `FailedRecordsRepository
.insert_failed_record` acquires its *own* pooled connection and commits
immediately, so those rows stand regardless of the batch transaction. -/
structure LoopState where
  pending : List ParcelFeature
  failed : List FailedRecord
  aborted : Bool
  saved : Nat
  skipped : Nat
  errors : Nat
  deriving DecidableEq

/-- The per-feature loop of `insert_parcels` (lines 48-195).  `failsAt f`
models the parcel INSERT of feature `f` itself raising (e.g. a constraint
violation other than the conflict key) — the error the code catches at
line 165.  Per iteration: missing/empty fid → skip; `wkt` present but empty
→ `ValueError` at line 65, routed to the Failed-Record Store, counted as
skipped (no batch-connection execute, so the transaction status is
untouched); otherwise the INSERT is attempted on the shared connection:
with the transaction already aborted, `cursor.execute` raises
`InFailedSqlTransaction` (caught at line 165 and dead-lettered like any
insert error); with a healthy transaction, `failsAt f` raises, is
dead-lettered, and puts the transaction into the aborted state; otherwise
the row lands in the open transaction and `saved_count` is incremented.
(A `wkt` that is absent altogether leaves `geom = None` and still reaches
the INSERT.) -/
def insertParcelsLoop (failsAt : ParcelFeature → Bool) :
    List ParcelFeature → LoopState → LoopState
  | [], s => s
  | f :: rest, s =>
    if !goodFid f.fid then
      insertParcelsLoop failsAt rest { s with skipped := s.skipped + 1 }
    else if f.wkt == some "" then
      let failed := insert_failed_record s.failed "parcel" (jsonOfFeature f)
        "ValueError" "Gecerli geometri verileri bulunamadi" (fidStr f)
      insertParcelsLoop failsAt rest
        { s with failed := failed, skipped := s.skipped + 1 }
    else if s.aborted then
      let failed := insert_failed_record s.failed "parcel" (jsonOfFeature f)
        "InFailedSqlTransaction" "current transaction is aborted" (fidStr f)
      insertParcelsLoop failsAt rest
        { s with failed := failed, errors := s.errors + 1 }
    else if failsAt f then
      let failed := insert_failed_record s.failed "parcel" (jsonOfFeature f)
        "Exception" "insert error" (fidStr f)
      insertParcelsLoop failsAt rest
        { s with failed := failed, aborted := true, errors := s.errors + 1 }
    else
      insertParcelsLoop failsAt rest
        { s with pending := upsertParcel s.pending f, saved := s.saved + 1 }

/-- Result of one `insert_parcels` call: the database state after the final
commit, the returned `saved_count`, the skip and error counters, and the
number of `conn.commit()` calls issued (line 199 commits once for the whole
batch; an empty batch returns before opening the transaction). -/
structure InsertParcelsResult where
  state : PState
  saved : Nat
  skipped : Nat
  errors : Nat
  commits : Nat
  deriving DecidableEq

/-- `ParcelRepository.insert_parcels`.  The `conn.commit()` at line 199 is
issued unconditionally, but when the transaction is in the aborted state
PostgreSQL executes that COMMIT as a ROLLBACK (psycopg2 raises nothing):
every parcel INSERT of the batch is discarded and `tk_parsel` keeps its
pre-batch content, while the independently-committed failed-record rows
stand.  The function still returns the `saved_count` accumulated from the
pre-abort `cursor.execute` calls. -/
def insert_parcels (failsAt : ParcelFeature → Bool) (st : PState)
    (features : List ParcelFeature) : InsertParcelsResult :=
  if features.isEmpty then ⟨st, 0, 0, 0, 0⟩
  else
    let s := insertParcelsLoop failsAt features ⟨st.parcels, st.failed, false, 0, 0, 0⟩
    if s.aborted then ⟨⟨st.parcels, s.failed⟩, s.saved, s.skipped, s.errors, 1⟩
    else ⟨⟨s.pending, s.failed⟩, s.saved, s.skipped, s.errors, 1⟩

/-- The failed-record row written when the INSERT of `f` itself raises. -/
def insertErrRecord (f : ParcelFeature) : FailedRecord :=
  ⟨"parcel", fidStr f, jsonOfFeature f, "Exception", "insert error", 0, "failed"⟩

/-- The failed-record row written when the INSERT of `f` raises
`InFailedSqlTransaction` because an earlier feature already aborted the
shared transaction. -/
def abortedErrRecord (f : ParcelFeature) : FailedRecord :=
  ⟨"parcel", fidStr f, jsonOfFeature f, "InFailedSqlTransaction",
   "current transaction is aborted", 0, "failed"⟩

/-! ## Geometry Extractor: `WFSGeometryProcessor` (src/geometry.py)

Coordinates are exact pairs; the WKT output is modelled structurally (which
geometry tag is emitted and with which shells), not as the decimal string
`shapely.wkt.dumps` prints. -/

abbrev Coord := Int × Int

/-- Structural form of the WKT string the processor emits. -/
inductive Wkt where
  | point (p : Coord)
  | linestring (cs : List Coord)
  | multilinestring (ls : List (List Coord))
  | polygon (shell : List Coord)
  | multipolygon (shells : List (List Coord))
  deriving DecidableEq

/-- Append the first coordinate when the ring is open. -/
def ringClose (ring : List Coord) : List Coord :=
  match ring.head?, ring.getLast? with
  | some h, some l => if h = l then ring else ring ++ [h]
  | _, _ => ring

/-- Model of shapely's `Polygon(ring)` constructor, reduced to the exterior
shell it stores: the empty ring yields an empty polygon; otherwise the ring
is auto-closed and must hold at least 4 coordinates once closed (shapely
raises "A linearring requires at least 4 coordinates" below that). -/
def shapelyPolygonShell (ring : List Coord) : Except Unit (List Coord) :=
  if ring.isEmpty then .ok []
  else
    let c := ringClose ring
    if c.length < 4 then .error () else .ok c

/-- Model of shapely's `LineString(coords)` constructor: a single coordinate
is rejected ("LineString must have at least 2 coordinate tuples"). -/
def shapelyLine (coords : List Coord) : Except Unit (List Coord) :=
  if coords.length = 1 then .error () else .ok coords

/-- Runs a shapely constructor over each element in order, propagating the
first raised exception — the semantics of the list comprehensions and loops
of `create_wkt_from_rings` that build `polygons`/`MultiLineString` parts. -/
def mapCtor (f : List Coord → Except Unit (List Coord)) :
    List (List Coord) → Except Unit (List (List Coord))
  | [] => .ok []
  | r :: rs => do
    let s ← f r
    let ss ← mapCtor f rs
    .ok (s :: ss)

/-- The typed branch of `create_wkt_from_rings` (lines 290-322): dispatch on
the GML geometry tag; `.ok none` is falling through to the generic fallback
at line 325, `.error ()` is a shapely constructor raising (handled by the
`except` clause). -/
def createWktMain (geomType : String) (rings : List (List Coord)) :
    Except Unit (Option Wkt) :=
  if geomType = "Point" then
    match rings.head? with
    | some (p :: _) => .ok (some (.point p))
    | _ => .ok none
  else if geomType = "LineString" ∨ geomType = "MultiLineString" then
    if rings.length = 1 then
      (shapelyLine (rings.headI)).map fun l => some (.linestring l)
    else
      (mapCtor shapelyLine rings).map fun ls => some (.multilinestring ls)
  else if geomType = "Polygon" then
    (shapelyPolygonShell rings.headI).map fun s => some (.polygon s)
  else if geomType = "MultiPolygon" then
    let cand := rings.filter fun r => 4 ≤ r.length
    (mapCtor shapelyPolygonShell cand).map fun shells =>
      if shells.isEmpty then none
      else if shells.length = 1 then some (.polygon shells.headI)
      else some (.multipolygon shells)
  else .ok none

/-- The generic fallback of `create_wkt_from_rings` (lines 324-335), reached
when the typed branch produced nothing: treat the rings as polygon data. -/
def createWktFallback (rings : List (List Coord)) : Except Unit (Option Wkt) :=
  match rings.head? with
  | some r0 =>
    if 3 ≤ r0.length then
      if rings.length = 1 then
        (shapelyPolygonShell r0).map fun s => some (.polygon s)
      else
        let cand := rings.filter fun r => 4 ≤ r.length
        (mapCtor shapelyPolygonShell cand).map fun shells =>
          if shells.length = 1 then some (.polygon shells.headI)
          else some (.multipolygon shells)
    else .ok none
  | none => .ok none

/-- The whole `try` body: the empty-rings guard at line 286 raises a
`ValueError` that the function's own `except` clause catches. -/
def createWktBody (geomType : String) (rings : List (List Coord)) :
    Except Unit (Option Wkt) :=
  if rings.isEmpty then .error ()
  else do
    match ← createWktMain geomType rings with
    | some w => pure (some w)
    | none => createWktFallback rings

/-- The manual string fallback of the `except` clause (lines 339-348): one
ring becomes a raw POLYGON, anything else a raw MULTIPOLYGON, with no
closing and no point-count checks. -/
def manualWkt (rings : List (List Coord)) : Wkt :=
  if rings.length = 1 then .polygon rings.headI else .multipolygon rings

/-- `WFSGeometryProcessor.create_wkt_from_rings` (lines 274-350): run the
`try` body; a shapely exception lands in the manual fallback; falling out of
the `try` with no return reaches the uncaught `raise ValueError` at
line 350. -/
def create_wkt_from_rings (geomType : String) (rings : List (List Coord)) :
    Except String Wkt :=
  match createWktBody geomType rings with
  | .ok (some w) => .ok w
  | .ok none => .error "WKT olusturulamadi"
  | .error _ => .ok (manualWkt rings)

/-- The polygon ring-closure step of `process_geometry_element`
(src/geometry.py lines 623-626 for the parsed ring, repeated at lines
630-633 for the transformed ring): for polygon kinds with at least 3 parsed
coordinates, append the first point when first ≠ last. -/
def closeRingInPlace (geomType : String) (coords : List Coord) : List Coord :=
  if (geomType = "MultiPolygon" ∨ geomType = "Polygon") ∧ 3 ≤ coords.length then
    ringClose coords
  else coords

/-- The per-`gml:coordinates` handling of `process_geometry_element` on the
PyProj path (GDAL absent, lines 618-636): close the parsed ring, transform
it, close the transformed ring again.  `transform` abstracts
`self.transformer.transform` (pyproj, an external reprojection).  Returns
(original ring as recorded, transformed ring as recorded). -/
def processRing (transform : Coord → Coord) (geomType : String)
    (coords : List Coord) : List Coord × List Coord :=
  let original := closeRingInPlace geomType coords
  let transformed := closeRingInPlace geomType (original.map transform)
  (original, transformed)

/-- Discriminator used when refuting a claim about which WKT tag is
emitted. -/
def isMultipolygonResult : Except String Wkt → Bool
  | .ok (.multipolygon _) => true
  | _ => false

/-! ## Helper lemmas -/

theorem ringClose_of_open {coords : List Coord} {h l : Coord}
    (hh : coords.head? = some h) (hl : coords.getLast? = some l) (hne : h ≠ l) :
    ringClose coords = coords ++ [h] := by
  unfold ringClose
  rw [hh, hl]
  simp [hne]

theorem ringClose_of_closed {coords : List Coord} {h : Coord}
    (hh : coords.head? = some h) (hl : coords.getLast? = some h) :
    ringClose coords = coords := by
  unfold ringClose
  rw [hh, hl]
  simp

theorem closeRingInPlace_open {gt : String}
    (hgt : gt = "MultiPolygon" ∨ gt = "Polygon")
    {coords : List Coord} {h l : Coord} (hlen : 3 ≤ coords.length)
    (hh : coords.head? = some h) (hl : coords.getLast? = some l) (hne : h ≠ l) :
    closeRingInPlace gt coords = coords ++ [h] := by
  unfold closeRingInPlace
  rw [if_pos ⟨hgt, hlen⟩]
  exact ringClose_of_open hh hl hne

/-! ## C7: polygon ring closure before transformation -/

/-- C7: for a polygon-kind ring with at least 3 parsed coordinate pairs
whose first point differs from its last, `process_geometry_element` appends
the first point to close the ring, and the coordinate transformation is
applied to the already-closed ring; in particular the open ring
[(0,0),(1,0),(1,1)] becomes [(0,0),(1,0),(1,1),(0,0)]. -/
theorem C7_ring_closure (transform : Coord → Coord) (gt : String)
    (hgt : gt = "MultiPolygon" ∨ gt = "Polygon")
    (coords : List Coord) (h l : Coord) (hlen : 3 ≤ coords.length)
    (hh : coords.head? = some h) (hl : coords.getLast? = some l) (hne : h ≠ l) :
    (processRing transform gt coords).1 = coords ++ [h]
    ∧ (processRing transform gt coords).2
        = closeRingInPlace gt ((coords ++ [h]).map transform)
    ∧ closeRingInPlace "Polygon" [(0, 0), (1, 0), (1, 1)]
        = [(0, 0), (1, 0), (1, 1), (0, 0)] := by
  have hc : closeRingInPlace gt coords = coords ++ [h] :=
    closeRingInPlace_open hgt hlen hh hl hne
  refine ⟨?_, ?_, by decide⟩
  · simp [processRing, hc]
  · simp [processRing, hc]

/-- Witness for C7 at the spec's own example ring, with a nontrivial
transformation. -/
theorem C7_ring_closure_witness :
    (processRing (fun c => (c.1 * 2, c.2 * 2)) "Polygon" [(0, 0), (1, 0), (1, 1)]).1
      = [(0, 0), (1, 0), (1, 1), (0, 0)]
    ∧ (processRing (fun c => (c.1 * 2, c.2 * 2)) "Polygon" [(0, 0), (1, 0), (1, 1)]).2
      = closeRingInPlace "Polygon"
          (([(0, 0), (1, 0), (1, 1), (0, 0)] : List Coord).map fun c => (c.1 * 2, c.2 * 2)) :=
  ⟨(C7_ring_closure (fun c => (c.1 * 2, c.2 * 2)) "Polygon" (Or.inr rfl)
      [(0, 0), (1, 0), (1, 1)] (0, 0) (1, 1) (by decide) (by decide) (by decide)
      (by decide)).1,
   (C7_ring_closure (fun c => (c.1 * 2, c.2 * 2)) "Polygon" (Or.inr rfl)
      [(0, 0), (1, 0), (1, 1)] (0, 0) (1, 1) (by decide) (by decide) (by decide)
      (by decide)).2.1⟩

/-! ## C4: quota short-circuit -/

/-- C4: once the daily-limit flag has been persisted with today's date,
`sync_daily_parcels` on the same calendar day halts at the guard with zero
network requests, while an invocation on the next calendar day runs the
paginated loop normally. -/
theorem C4_quota_short_circuit (today maxF : Nat) (st : Cursor)
    (pages : List PageOutcome) :
    sync_daily_parcels (.ok (set_daily_limit_reached today)) today maxF st pages
      = .quotaHalted
    ∧ fetchCount
        (sync_daily_parcels (.ok (set_daily_limit_reached today)) today maxF st pages)
      = 0
    ∧ sync_daily_parcels (.ok (set_daily_limit_reached today)) (today + 1) maxF st pages
      = .ran (dailyRun maxF st pages) := by
  refine ⟨?_, ?_, ?_⟩ <;>
    simp [sync_daily_parcels, is_daily_limit_reached, set_daily_limit_reached,
      fetchCount, Nat.ne_of_lt (Nat.lt_succ_self today)]

/-! ## C10: the quota guard fails open on storage errors -/

/-- C10: `is_daily_limit_reached` returns false when no flag row exists,
when the stored date is not today, and also when reading the flag raises
(`except` clause returns False), so a sync invocation proceeds to the
paginated loop — and its network requests — despite a storage failure
during the check. -/
theorem C10_quota_guard_fails_open (today d maxF : Nat) (st : Cursor)
    (pages : List PageOutcome) :
    is_daily_limit_reached (.error ()) today = false
    ∧ is_daily_limit_reached (.ok none) today = false
    ∧ (d ≠ today → is_daily_limit_reached (.ok (some d)) today = false)
    ∧ sync_daily_parcels (.error ()) today maxF st pages
        = .ran (dailyRun maxF st pages) := by
  refine ⟨rfl, rfl, ?_, ?_⟩
  · intro hne
    simp [is_daily_limit_reached, hne]
  · simp [sync_daily_parcels, is_daily_limit_reached]

/-- Witness for C10: flag stored for day 5, checked on day 7; and a storage
error during the check on day 5 itself still lets the loop run. -/
theorem C10_quota_guard_fails_open_witness :
    is_daily_limit_reached (.ok (some 5)) 7 = false
    ∧ sync_daily_parcels (.error ()) 5 1000 ⟨4, 0⟩ [.fetchFail]
        = .ran (dailyRun 1000 ⟨4, 0⟩ [.fetchFail]) :=
  ⟨(C10_quota_guard_fails_open 7 5 1000 ⟨4, 0⟩ [.fetchFail]).2.2.1 (by decide),
   (C10_quota_guard_fails_open 5 5 1000 ⟨4, 0⟩ [.fetchFail]).2.2.2⟩

/-! ## Retry-loop lemmas for the Fetcher -/

theorem fetchGo_attempts_le (cfg : FetchConfig) (outcome : Nat → AttemptOutcome) :
    ∀ (fuel : Nat) (t : FetchTrace),
      (fetchGo cfg outcome fuel t).attempts ≤ t.attempts + fuel := by
  intro fuel
  induction fuel with
  | zero => intro t; simp [fetchGo]
  | succ n ih =>
    intro t
    cases h : outcome (t.attempts + 1) with
    | success => simp [fetchGo, h]
    | timeout =>
      simp only [fetchGo, h]
      split
      · exact le_trans (ih _) (by simp; omega)
      · exact le_trans (ih _) (by simp; omega)
    | connError =>
      simp only [fetchGo, h]
      split
      · exact le_trans (ih _) (by simp; omega)
      · exact le_trans (ih _) (by simp; omega)
    | httpError s body =>
      simp only [fetchGo, h]
      split
      · simp
      · split
        · simp
        · split
          · exact le_trans (ih _) (by simp; omega)
          · exact le_trans (ih _) (by simp; omega)
    | otherError => simp [fetchGo, h]

theorem fetchGo_retryable (cfg : FetchConfig) (outcome : Nat → AttemptOutcome)
    (hret : ∀ k, retryableFailure (outcome k) = true) :
    ∀ (fuel : Nat) (t : FetchTrace), 1 ≤ fuel → t.attempts + fuel = cfg.maxRetries →
      (fetchGo cfg outcome fuel t).attempts = cfg.maxRetries
      ∧ (fetchGo cfg outcome fuel t).sleeps = t.sleeps + (fuel - 1)
      ∧ (fetchGo cfg outcome fuel t).sleepTime
          = t.sleepTime + (fuel - 1) * cfg.retryDelay
      ∧ (fetchGo cfg outcome fuel t).logRows = t.logRows
      ∧ (fetchGo cfg outcome fuel t).success = t.success
      ∧ (fetchGo cfg outcome fuel t).quotaFlagSet = t.quotaFlagSet := by
  intro fuel
  induction fuel with
  | zero => intro t h1 _; omega
  | succ n ih =>
    intro t _ hinv
    have hret1 := hret (t.attempts + 1)
    cases h : outcome (t.attempts + 1) with
    | success => rw [h] at hret1; simp [retryableFailure] at hret1
    | otherError => rw [h] at hret1; simp [retryableFailure] at hret1
    | timeout =>
      simp only [fetchGo, h]
      by_cases hlt : t.attempts + 1 < cfg.maxRetries
      · obtain ⟨m, rfl⟩ : ∃ m, n = m + 1 := ⟨n - 1, by omega⟩
        rw [if_pos hlt]
        obtain ⟨ha, hs, hst, hlr, hsu, hq⟩ :=
          ih { t with attempts := t.attempts + 1, sleeps := t.sleeps + 1,
                      sleepTime := t.sleepTime + cfg.retryDelay }
            (by omega) (by simp; omega)
        refine ⟨ha, ?_, ?_, ?_, ?_, ?_⟩
        · rw [hs]; simp; omega
        · rw [hst]; simp [Nat.add_sub_cancel]; ring
        · rw [hlr]
        · rw [hsu]
        · rw [hq]
      · have hn0 : n = 0 := by omega
        subst hn0
        rw [if_neg hlt]
        simp [fetchGo]
        omega
    | connError =>
      simp only [fetchGo, h]
      by_cases hlt : t.attempts + 1 < cfg.maxRetries
      · obtain ⟨m, rfl⟩ : ∃ m, n = m + 1 := ⟨n - 1, by omega⟩
        rw [if_pos hlt]
        obtain ⟨ha, hs, hst, hlr, hsu, hq⟩ :=
          ih { t with attempts := t.attempts + 1, sleeps := t.sleeps + 1,
                      sleepTime := t.sleepTime + cfg.retryDelay }
            (by omega) (by simp; omega)
        refine ⟨ha, ?_, ?_, ?_, ?_, ?_⟩
        · rw [hs]; simp; omega
        · rw [hst]; simp [Nat.add_sub_cancel]; ring
        · rw [hlr]
        · rw [hsu]
        · rw [hq]
      · have hn0 : n = 0 := by omega
        subst hn0
        rw [if_neg hlt]
        simp [fetchGo]
        omega
    | httpError s body =>
      rw [h] at hret1
      simp only [retryableFailure, Bool.and_eq_true, decide_eq_true_eq,
        Bool.not_eq_true'] at hret1
      obtain ⟨⟨hs5, _⟩, hnq⟩ := hret1
      have hquota : ¬(s = 500 ∧ hasLimitKeyword body) := by
        rintro ⟨rfl, hb⟩
        simp [hb] at hnq
      have h4xx : ¬(400 ≤ s ∧ s < 500) := by omega
      simp only [fetchGo, h]
      rw [if_neg hquota, if_neg h4xx]
      by_cases hlt : t.attempts + 1 < cfg.maxRetries
      · obtain ⟨m, rfl⟩ : ∃ m, n = m + 1 := ⟨n - 1, by omega⟩
        rw [if_pos hlt]
        obtain ⟨ha, hs, hst, hlr, hsu, hq⟩ :=
          ih { t with attempts := t.attempts + 1, sleeps := t.sleeps + 1,
                      sleepTime := t.sleepTime + cfg.retryDelay }
            (by omega) (by simp; omega)
        refine ⟨ha, ?_, ?_, ?_, ?_, ?_⟩
        · rw [hs]; simp; omega
        · rw [hst]; simp [Nat.add_sub_cancel]; ring
        · rw [hlr]
        · rw [hsu]
        · rw [hq]
      · have hn0 : n = 0 := by omega
        subst hn0
        rw [if_neg hlt]
        simp [fetchGo]
        omega


theorem fetchGo_logRows (cfg : FetchConfig) (outcome : Nat → AttemptOutcome) :
    ∀ (fuel : Nat) (t : FetchTrace), t.success = false → t.logRows = 0 →
      (fetchGo cfg outcome fuel t).logRows
        = if (fetchGo cfg outcome fuel t).success then 1 else 0 := by
  intro fuel
  induction fuel with
  | zero => intro t hs hl; simp [fetchGo, hs, hl]
  | succ n ih =>
    intro t hs hl
    cases h : outcome (t.attempts + 1) with
    | success => simp [fetchGo, h, hl]
    | timeout =>
      simp only [fetchGo, h]
      split
      · exact ih _ hs hl
      · exact ih _ hs hl
    | connError =>
      simp only [fetchGo, h]
      split
      · exact ih _ hs hl
      · exact ih _ hs hl
    | httpError s body =>
      simp only [fetchGo, h]
      split
      · simp [hs, hl]
      · split
        · simp [hs, hl]
        · split
          · exact ih _ hs hl
          · exact ih _ hs hl
    | otherError => simp [fetchGo, h, hs, hl]

theorem fetchGo_success_false (cfg : FetchConfig) (outcome : Nat → AttemptOutcome)
    (hret : ∀ k, retryableFailure (outcome k) = true) :
    ∀ (fuel : Nat) (t : FetchTrace), t.success = false →
      (fetchGo cfg outcome fuel t).success = false := by
  intro fuel
  induction fuel with
  | zero => intro t hs; simpa [fetchGo] using hs
  | succ n ih =>
    intro t hs
    have hret1 := hret (t.attempts + 1)
    cases h : outcome (t.attempts + 1) with
    | success => rw [h] at hret1; simp [retryableFailure] at hret1
    | otherError => rw [h] at hret1; simp [retryableFailure] at hret1
    | timeout =>
      simp only [fetchGo, h]
      split
      · exact ih _ hs
      · exact ih _ hs
    | connError =>
      simp only [fetchGo, h]
      split
      · exact ih _ hs
      · exact ih _ hs
    | httpError s body =>
      simp only [fetchGo, h]
      split
      · simpa using hs
      · split
        · simpa using hs
        · split
          · exact ih _ hs
          · exact ih _ hs

/-! ## C5: retry bound, fixed inter-attempt delay, immediate 4xx failure -/

/-- C5: the Fetcher defaults to 10 attempts with a 5-second delay; it never
makes more than `maxRetries` attempts; when every attempt fails with a
connection failure, timeout or 5xx status it makes exactly `maxRetries`
attempts, sleeping the fixed delay between consecutive attempts
(`maxRetries - 1` sleeps), and returns a failure; with `maxRetries = 3` and
persistent connection failure it makes exactly 3 attempts and sleeps twice;
a first attempt failing with a 4xx status fails the whole fetch immediately
with no retry and no sleep. -/
theorem C5_retry_bound :
    (defaultFetchConfig.maxRetries = 10 ∧ defaultFetchConfig.retryDelay = 5)
    ∧ (∀ (cfg : FetchConfig) (outcome : Nat → AttemptOutcome),
        (fetch_features cfg outcome).attempts ≤ cfg.maxRetries)
    ∧ (∀ (cfg : FetchConfig) (outcome : Nat → AttemptOutcome),
        1 ≤ cfg.maxRetries → (∀ k, retryableFailure (outcome k) = true) →
        (fetch_features cfg outcome).attempts = cfg.maxRetries
        ∧ (fetch_features cfg outcome).success = false
        ∧ (fetch_features cfg outcome).sleeps = cfg.maxRetries - 1
        ∧ (fetch_features cfg outcome).sleepTime
            = (cfg.maxRetries - 1) * cfg.retryDelay)
    ∧ (fetch_features ⟨3, 5⟩ (fun _ => .connError)
        = ⟨3, 2, 10, 0, false, false⟩)
    ∧ (∀ (cfg : FetchConfig) (outcome : Nat → AttemptOutcome) (s : Nat) (body : String),
        400 ≤ s → s < 500 → outcome 1 = .httpError s body → 1 ≤ cfg.maxRetries →
        (fetch_features cfg outcome).attempts = 1
        ∧ (fetch_features cfg outcome).success = false
        ∧ (fetch_features cfg outcome).sleeps = 0) := by
  refine ⟨⟨rfl, rfl⟩, ?_, ?_, by decide, ?_⟩
  · intro cfg outcome
    simpa using fetchGo_attempts_le cfg outcome cfg.maxRetries ⟨0, 0, 0, 0, false, false⟩
  · intro cfg outcome h1 hret
    obtain ⟨ha, hs, hst, _, hsu, _⟩ :=
      fetchGo_retryable cfg outcome hret cfg.maxRetries ⟨0, 0, 0, 0, false, false⟩ h1
        (by simp)
    exact ⟨ha, by simpa using hsu, by simpa using hs, by simpa using hst⟩
  · intro cfg outcome s body h4 h5 hout h1
    obtain ⟨m, hm⟩ : ∃ m, cfg.maxRetries = m + 1 := ⟨cfg.maxRetries - 1, by omega⟩
    have hquota : ¬(s = 500 ∧ hasLimitKeyword body) := by
      rintro ⟨rfl, _⟩; omega
    have hfour : 400 ≤ s ∧ s < 500 := ⟨h4, h5⟩
    unfold fetch_features
    rw [hm]
    simp only [fetchGo, hout]
    rw [if_neg hquota, if_pos hfour]
    exact ⟨rfl, rfl, rfl⟩

/-- Witness for C5: three connection-failure attempts under `maxRetries = 3`,
and immediate failure on a 404 first attempt. -/
theorem C5_retry_bound_witness :
    ((fetch_features ⟨3, 5⟩ (fun _ => AttemptOutcome.connError)).attempts = 3
      ∧ (fetch_features ⟨3, 5⟩ (fun _ => AttemptOutcome.connError)).success = false)
    ∧ (fetch_features ⟨10, 5⟩ (fun _ => AttemptOutcome.httpError 404 "not found")).attempts = 1 :=
  ⟨⟨(C5_retry_bound.2.2.1 ⟨3, 5⟩ (fun _ => .connError) (by decide) (fun _ => rfl)).1,
    (C5_retry_bound.2.2.1 ⟨3, 5⟩ (fun _ => .connError) (by decide) (fun _ => rfl)).2.1⟩,
   (C5_retry_bound.2.2.2.2 ⟨10, 5⟩ (fun _ => .httpError 404 "not found") 404 "not found"
      (by decide) (by decide) rfl (by decide)).1⟩

/-! ## C8: QueryLog rows per attempt

The claim says every attempt, successful or failed, appends one audit row.
In the source `insert_log` is called only on the success path (src/client.py
line 156); none of the `except` branches writes a `tk_logs` row. -/

/-- C8 counterexample: a fetch that makes 3 failing attempts (persistent
connection failure, `maxRetries = 3`) appends 0 QueryLog rows, not 3 — the
audit log records successful attempts only. -/
theorem C8_counterexample :
    (fetch_features ⟨3, 5⟩ (fun _ => AttemptOutcome.connError)).attempts = 3
    ∧ (fetch_features ⟨3, 5⟩ (fun _ => AttemptOutcome.connError)).logRows = 0 := by
  decide

/-- C8 amended: exactly one QueryLog row is appended when the fetch succeeds
(one row for the single successful attempt) and none otherwise; in
particular failed attempts leave no audit row and a fetch that exhausts its
retries leaves zero rows. -/
theorem C8_log_rows_on_success_only (cfg : FetchConfig)
    (outcome : Nat → AttemptOutcome) :
    (fetch_features cfg outcome).logRows
      = if (fetch_features cfg outcome).success then 1 else 0 :=
  fetchGo_logRows cfg outcome cfg.maxRetries ⟨0, 0, 0, 0, false, false⟩ rfl rfl

/-! ## C3: cursor advancement per page

The claim's full-page half matches the code; its short/empty-page half does
not: the save inside a short-page iteration happens at line 337, *before*
the date advance at lines 352-353, so it records the unchanged date with the
incremented index, and a subsequent full-page save can carry an advanced
date together with a nonzero index. -/

/-- C3 counterexample: with `maxFeatures = 1000`, a short page (500
entities) at cursor (day 0, index 0) saves (0, 1000) — date unchanged,
index incremented — not a cursor with the date advanced and index 0; in a
run where that short page is followed by a full page, the saved cursors are
[(0,1000), (1,1000), (1,1000)]: the save after the short-page iteration has
its date advanced by one day but index 1000 ≠ 0. -/
theorem C3_counterexample :
    dailyStep 1000 ⟨0, 0⟩ (.ok 500 500)
      = ⟨[⟨0, 1000⟩], ⟨1, 0⟩, false⟩
    ∧ (dailyRun 1000 ⟨0, 0⟩ [.ok 500 500, .ok 1000 1000]).saves
      = [⟨0, 1000⟩, ⟨1, 1000⟩, ⟨1, 1000⟩] := by
  decide

/-- C3 amended: a full-page iteration saves the unchanged date with the
index increased by exactly `maxFeatures` (and continues from that cursor); a
short non-empty page *also* saves the unchanged date with the index
increased by `maxFeatures`, and only the in-memory cursor for the next
iteration advances the date and resets the index to 0; an empty page (no
members, or no processed entities) performs no save in its iteration and
advances the in-memory cursor to (date+1, 0); the "index is 0 whenever the
date advances" invariant holds for the in-memory cursor, not for the saved
cursors. -/
theorem C3_cursor_advancement (maxF : Nat) (st : Cursor) (found saved : Nat) :
    (dailyStep maxF st (.ok maxF saved)
      = ⟨[⟨st.date, st.idx + maxF⟩], ⟨st.date, st.idx + maxF⟩, false⟩)
    ∧ (found < maxF →
        dailyStep maxF st (.ok found saved)
          = ⟨[⟨st.date, st.idx + maxF⟩], ⟨st.date + 1, 0⟩, false⟩)
    ∧ dailyStep maxF st .membersEmpty = ⟨[], ⟨st.date + 1, 0⟩, false⟩
    ∧ dailyStep maxF st .featuresEmpty = ⟨[], ⟨st.date + 1, 0⟩, false⟩
    ∧ (∀ p : PageOutcome, (dailyStep maxF st p).next.date ≠ st.date →
        (dailyStep maxF st p).next.idx = 0) := by
  refine ⟨?_, ?_, rfl, rfl, ?_⟩
  · simp [dailyStep]
  · intro hlt
    simp [dailyStep, hlt]
  · intro p
    cases p with
    | fetchFail => simp [dailyStep]
    | membersEmpty => simp [dailyStep]
    | featuresEmpty => simp [dailyStep]
    | processError => simp [dailyStep]
    | interrupted => simp [dailyStep]
    | ok found saved =>
      simp only [dailyStep]
      split
      · simp
      · simp

/-- Witness for C3 amended at `maxFeatures = 1000`, a cursor (day 3, index
2000), a full page and a short page. -/
theorem C3_cursor_advancement_witness :
    dailyStep 1000 ⟨3, 2000⟩ (.ok 1000 1000)
      = ⟨[⟨3, 3000⟩], ⟨3, 3000⟩, false⟩
    ∧ dailyStep 1000 ⟨3, 2000⟩ (.ok 500 500)
      = ⟨[⟨3, 3000⟩], ⟨4, 0⟩, false⟩ :=
  ⟨(C3_cursor_advancement 1000 ⟨3, 2000⟩ 500 500).1,
   (C3_cursor_advancement 1000 ⟨3, 2000⟩ 500 500).2.1 (by decide)⟩

/-! ## C9: final cursor save at loop termination

Line 373 (`update_setting` after the loop) runs on normal completion and on
every `break` path, but the signal handler ends with `raise
KeyboardInterrupt` (line 149) — not an `Exception` subclass — which unwinds
out of `sync_daily_parcels` past line 373 (there is no `finally`), so no
final save happens on a user/OS shutdown signal. -/

/-- C9 counterexample: a run whose second iteration is interrupted by the
shutdown signal ends with in-memory cursor (1, 0) — the date advance from
the first, short page — but the saves list is only [(0, 1000)]: the
termination-time cursor is never saved, so the in-memory advance is lost. -/
theorem C9_counterexample :
    dailyRun 1000 ⟨0, 0⟩ [.ok 500 500, .interrupted]
      = ⟨[⟨0, 1000⟩], ⟨1, 0⟩, 1, true⟩
    ∧ Cursor.mk 1 0 ∉ (dailyRun 1000 ⟨0, 0⟩ [.ok 500 500, .interrupted]).saves := by
  decide

/-- C9 amended: when no shutdown signal arrives — normal completion,
page-level fetch failure, or a processing/persistence error — the last
`update_setting` call of the run saves exactly the in-memory cursor at loop
termination; a shutdown signal (`interrupted`) bypasses that final save. -/
theorem C9_final_save (maxF : Nat) (st : Cursor) (pages : List PageOutcome)
    (h : PageOutcome.interrupted ∉ pages) :
    (dailyRun maxF st pages).saves.getLast? = some (dailyRun maxF st pages).final
    ∧ (dailyRun maxF st pages).interrupted = false := by
  induction pages generalizing st with
  | nil => simp [dailyRun]
  | cons p rest ih =>
    have hp : p ≠ .interrupted := fun hc => h (hc ▸ List.mem_cons_self p rest)
    have hrest : PageOutcome.interrupted ∉ rest := fun hc => h (List.mem_cons_of_mem p hc)
    cases p with
    | interrupted => exact absurd rfl hp
    | fetchFail =>
      simp [dailyRun, dailyStep]
    | processError =>
      simp [dailyRun, dailyStep]
    | membersEmpty =>
      have := ih ⟨st.date + 1, 0⟩ hrest
      simpa [dailyRun, dailyStep] using this
    | featuresEmpty =>
      have := ih ⟨st.date + 1, 0⟩ hrest
      simpa [dailyRun, dailyStep] using this
    | ok found saved =>
      by_cases hf : found < maxF
      · obtain ⟨h1, h2⟩ := ih ⟨st.date + 1, 0⟩ hrest
        simp [dailyRun, dailyStep, hf, List.getLast?_cons, h1, h2]
      · obtain ⟨h1, h2⟩ := ih ⟨st.date, st.idx + maxF⟩ hrest
        simp [dailyRun, dailyStep, hf, List.getLast?_cons, h1, h2]

/-- Witness for C9 amended: a short page followed by a fetch failure — the
run's saves end with the termination cursor. -/
theorem C9_final_save_witness :
    PageOutcome.interrupted ∉ ([.ok 500 500, .fetchFail] : List PageOutcome)
    ∧ (dailyRun 1000 ⟨0, 0⟩ [.ok 500 500, .fetchFail]).saves.getLast?
        = some (dailyRun 1000 ⟨0, 0⟩ [.ok 500 500, .fetchFail]).final :=
  ⟨by decide, (C9_final_save 1000 ⟨0, 0⟩ [.ok 500 500, .fetchFail] (by decide)).1⟩

/-! ## C2: idempotence of the Failed-Record Store

The claim says a conflicting insert *updates the existing row's retry
metadata*.  The source issues `ON CONFLICT (entity_type, entity_id, status)
DO NOTHING`: the existing row — retry count, error message, everything — is
left untouched.  Uniqueness of the triple is indeed preserved. -/

/-- C2 counterexample: with an existing failed row for ("parcel", "42") at
`retry_count = 0`, a second `insert_failed_record` for the same entity
leaves the table byte-identical (retry count still 0, error fields
unchanged), whereas the spec's update-retry-metadata behaviour would have
produced the updated row. -/
theorem C2_counterexample :
    insert_failed_record
        [⟨"parcel", "42", "raw1", "ValueError", "first failure", 0, "failed"⟩]
        "parcel" "raw2" "TypeError" "second failure" "42"
      = [⟨"parcel", "42", "raw1", "ValueError", "first failure", 0, "failed"⟩]
    ∧ insert_failed_record_specUpdate
        [⟨"parcel", "42", "raw1", "ValueError", "first failure", 0, "failed"⟩]
        "parcel" "raw2" "TypeError" "second failure" "42"
      = [⟨"parcel", "42", "raw1", "TypeError", "second failure", 1, "failed"⟩] := by
  decide

/-- C2 amended: when a row with the same (entityType, entityId,
status=failed) triple exists, `insert_failed_record` inserts nothing and
leaves the table — including the existing row's retry metadata — entirely
unchanged (`ON CONFLICT … DO NOTHING`); in every case the uniqueness of the
(entityType, entityId, status) triple is preserved. -/
theorem C2_conflict_insert_is_noop (tbl : List FailedRecord)
    (etype raw errType errMsg eid : String) (hu : UniqueTriples tbl) :
    (hasFailedTriple tbl etype eid "failed" = true →
      insert_failed_record tbl etype raw errType errMsg eid = tbl)
    ∧ UniqueTriples (insert_failed_record tbl etype raw errType errMsg eid) := by
  constructor
  · intro hdup
    simp [insert_failed_record, hdup]
  · by_cases hdup : hasFailedTriple tbl etype eid "failed" = true
    · simpa [insert_failed_record, hdup] using hu
    · rw [insert_failed_record, if_neg hdup]
      rw [UniqueTriples, List.pairwise_append]
      refine ⟨hu, List.pairwise_singleton _ _, ?_⟩
      intro a ha b hb
      simp only [List.mem_singleton] at hb
      subst hb
      rw [hasFailedTriple, List.any_eq_true] at hdup
      push_neg at hdup
      rintro ⟨h1, h2, h3⟩
      exact hdup a ha (by simp [h1, h2, h3])

/-- Witness for C2 amended at a concrete conflicting insert. -/
theorem C2_conflict_insert_is_noop_witness :
    insert_failed_record
        [⟨"parcel", "7", "raw", "ValueError", "boom", 0, "failed"⟩]
        "parcel" "raw2" "KeyError" "boom2" "7"
      = [⟨"parcel", "7", "raw", "ValueError", "boom", 0, "failed"⟩]
    ∧ UniqueTriples
        (insert_failed_record
          [⟨"parcel", "7", "raw", "ValueError", "boom", 0, "failed"⟩]
          "parcel" "raw2" "KeyError" "boom2" "7") :=
  ⟨(C2_conflict_insert_is_noop
      [⟨"parcel", "7", "raw", "ValueError", "boom", 0, "failed"⟩]
      "parcel" "raw2" "KeyError" "boom2" "7" (by decide)).1 (by decide),
   (C2_conflict_insert_is_noop
      [⟨"parcel", "7", "raw", "ValueError", "boom", 0, "failed"⟩]
      "parcel" "raw2" "KeyError" "boom2" "7" (by decide)).2⟩

/-! ## C6: WKT produced for polygon-kind geometries -/

theorem shapelyPolygonShell_closed {ring : List Coord}
    (h4 : 4 ≤ ring.length) (hc : ring.head? = ring.getLast?) :
    shapelyPolygonShell ring = .ok ring := by
  have hne : ring ≠ [] := by
    intro hnil
    rw [hnil] at h4
    simp at h4
  cases hh : ring.head? with
  | none => exact absurd (List.head?_eq_none_iff.mp hh) hne
  | some h =>
    have hl : ring.getLast? = some h := by rw [← hc, hh]
    have hclose : ringClose ring = ring := ringClose_of_closed hh hl
    rw [shapelyPolygonShell]
    rw [if_neg (by simpa [List.isEmpty_iff] using hne)]
    rw [hclose, if_neg (by omega)]

theorem mapCtor_shell_closed :
    ∀ rs : List (List Coord),
      (∀ r ∈ rs, 4 ≤ r.length ∧ r.head? = r.getLast?) →
      mapCtor shapelyPolygonShell rs = .ok rs := by
  intro rs
  induction rs with
  | nil => intro _; rfl
  | cons a t ih =>
    intro hr
    have ha := hr a (List.mem_cons_self a t)
    have ht := ih fun r hrm => hr r (List.mem_cons_of_mem a hrm)
    rw [mapCtor, shapelyPolygonShell_closed ha.1 ha.2, ht]
    rfl

/-- C6 counterexample: a Polygon-kind geometry with two 4-point closed rings
produces a POLYGON built from the first ring alone — `Polygon(rings[0])` at
src/geometry.py line 305 — not the MULTIPOLYGON with one shell per ring that
the claim requires for every polygon-kind geometry with multiple rings. -/
theorem C6_counterexample :
    create_wkt_from_rings "Polygon"
        [[(0, 0), (4, 0), (4, 4), (0, 0)], [(10, 10), (14, 10), (14, 14), (10, 10)]]
      = .ok (.polygon [(0, 0), (4, 0), (4, 4), (0, 0)])
    ∧ isMultipolygonResult
        (create_wkt_from_rings "Polygon"
          [[(0, 0), (4, 0), (4, 4), (0, 0)], [(10, 10), (14, 10), (14, 14), (10, 10)]])
      = false :=
  ⟨rfl, rfl⟩

/-- C6 amended: for a MultiPolygon-kind geometry whose rings are closed with
at least 4 points each, one ring yields a POLYGON and two or more rings
yield a MULTIPOLYGON in which each ring is an independent shell (no holes);
for a Polygon-kind geometry the builder always emits a POLYGON from the
first ring, discarding any further rings. -/
theorem C6_wkt_polygon_kinds :
    (∀ ring : List Coord, 4 ≤ ring.length → ring.head? = ring.getLast? →
      create_wkt_from_rings "MultiPolygon" [ring] = .ok (.polygon ring))
    ∧ (∀ rings : List (List Coord), 2 ≤ rings.length →
        (∀ r ∈ rings, 4 ≤ r.length ∧ r.head? = r.getLast?) →
        create_wkt_from_rings "MultiPolygon" rings = .ok (.multipolygon rings))
    ∧ (∀ (r : List Coord) (rest : List (List Coord)), 4 ≤ r.length →
        r.head? = r.getLast? →
        create_wkt_from_rings "Polygon" (r :: rest) = .ok (.polygon r)) := by
  refine ⟨?_, ?_, ?_⟩
  · intro ring h4 hc
    have hne : ring ≠ [] := by
      intro hnil
      rw [hnil] at h4
      simp at h4
    have hmap := mapCtor_shell_closed [ring] (by simpa using ⟨h4, hc⟩)
    simp only [create_wkt_from_rings, createWktBody, createWktMain]
    rw [show ([ring] : List (List Coord)).filter (fun r => 4 ≤ r.length) = [ring] by
      simp [List.filter_cons, h4]]
    rw [hmap]
    simp [Except.map, Except.bind, bind, pure, Except.pure]
  · intro rings h2 hr
    have hfilter : rings.filter (fun r => 4 ≤ r.length) = rings := by
      rw [List.filter_eq_self]
      intro a ha
      simpa using (hr a ha).1
    have hmap := mapCtor_shell_closed rings hr
    match rings, h2, hfilter, hmap with
    | a :: b :: t, _, hfilter, hmap =>
      simp only [create_wkt_from_rings, createWktBody, createWktMain]
      rw [hfilter, hmap]
      simp [Except.map, Except.bind, bind, pure, Except.pure]
  · intro r rest h4 hc
    have hshell := shapelyPolygonShell_closed h4 hc
    simp only [create_wkt_from_rings, createWktBody, createWktMain]
    rw [show (r :: rest).headI = r from rfl, hshell]
    simp [Except.map, Except.bind, bind, pure, Except.pure]

/-- Witness for C6 amended: one and two closed square rings under each
polygon kind. -/
theorem C6_wkt_polygon_kinds_witness :
    create_wkt_from_rings "MultiPolygon" [[(0, 0), (4, 0), (4, 4), (0, 0)]]
      = .ok (.polygon [(0, 0), (4, 0), (4, 4), (0, 0)])
    ∧ create_wkt_from_rings "MultiPolygon"
        [[(0, 0), (4, 0), (4, 4), (0, 0)], [(10, 10), (14, 10), (14, 14), (10, 10)]]
      = .ok (.multipolygon
          [[(0, 0), (4, 0), (4, 4), (0, 0)], [(10, 10), (14, 10), (14, 14), (10, 10)]])
    ∧ create_wkt_from_rings "Polygon"
        [[(20, 0), (24, 0), (24, 4), (20, 0)], [(1, 1), (2, 1), (2, 2), (1, 1)]]
      = .ok (.polygon [(20, 0), (24, 0), (24, 4), (20, 0)]) :=
  ⟨C6_wkt_polygon_kinds.1 [(0, 0), (4, 0), (4, 4), (0, 0)] (by decide) (by decide),
   C6_wkt_polygon_kinds.2.1
     [[(0, 0), (4, 0), (4, 4), (0, 0)], [(10, 10), (14, 10), (14, 14), (10, 10)]]
     (by decide) (by decide),
   C6_wkt_polygon_kinds.2.2 [(20, 0), (24, 0), (24, 4), (20, 0)]
     [[(1, 1), (2, 1), (2, 2), (1, 1)]] (by decide) (by decide)⟩

/-! ## C1: no data loss under partial batch failure

The claim (and spec §4.6/§8) requires that one bad row is isolated: the
other N−1 entities commit, the saved count is N−1, and exactly one
dead-letter row appears.  The implementation runs every per-record INSERT on
one shared psycopg2 connection inside one transaction with no savepoints, so
the first failing INSERT puts the transaction into the aborted state: every
later INSERT raises `InFailedSqlTransaction` and is dead-lettered too, and
the single `conn.commit()` at line 199 completes as a ROLLBACK, discarding
even the records inserted before the failure.  The code's own docstring
("Single transaction bulk insert", "Failed records tracking (no data
loss)") and the spec agree on the intent, so this is a defect of the code,
not of the claim. -/

/-- C1: evaluation at the failing input.  Batch [f1, f2, f3] (distinct
natural keys, valid fid and wkt) where only f2's INSERT itself raises:
`insert_parcels` on empty tables returns saved count 1 — not N−1 = 2 —
stores no parcel row at all (the aborted transaction's COMMIT acts as
ROLLBACK, so f1 and f3 are not persisted), and leaves two failed-record
rows (f2's real error plus f3's `InFailedSqlTransaction`), not exactly one
row for f2 alone.  This contradicts every part of the claimed property
except the uniqueness of f2's own dead-letter row. -/
theorem C1_single_insert_failure_rolls_back_batch :
    insert_parcels
        (fun f => f == ⟨some "2", some "P2", some "k2", some "z2"⟩)
        ⟨[], []⟩
        [⟨some "1", some "P1", some "k1", some "z1"⟩,
         ⟨some "2", some "P2", some "k2", some "z2"⟩,
         ⟨some "3", some "P3", some "k3", some "z3"⟩]
      = ⟨⟨[], [insertErrRecord ⟨some "2", some "P2", some "k2", some "z2"⟩,
              abortedErrRecord ⟨some "3", some "P3", some "k3", some "z3"⟩]⟩,
         1, 0, 2, 1⟩
    ∧ (insert_parcels
        (fun f => f == ⟨some "2", some "P2", some "k2", some "z2"⟩)
        ⟨[], []⟩
        [⟨some "1", some "P1", some "k1", some "z1"⟩,
         ⟨some "2", some "P2", some "k2", some "z2"⟩,
         ⟨some "3", some "P3", some "k3", some "z3"⟩]).saved ≠ 2
    ∧ (insert_parcels
        (fun f => f == ⟨some "2", some "P2", some "k2", some "z2"⟩)
        ⟨[], []⟩
        [⟨some "1", some "P1", some "k1", some "z1"⟩,
         ⟨some "2", some "P2", some "k2", some "z2"⟩,
         ⟨some "3",some "P3", some "k3", some "z3"⟩]).state.parcels = []
    ∧ (insert_parcels
        (fun f => f == ⟨some "2", some "P2", some "k2", some "z2"⟩)
        ⟨[], []⟩
        [⟨some "1", some "P1", some "k1", some "z1"⟩,
         ⟨some "2", some "P2", some "k2", some "z2"⟩,
         ⟨some "3", some "P3", some "k3", some "z3"⟩]).state.failed.length = 2 := by
  refine ⟨?_, by decide, by decide, by decide⟩
  decide

end TKGM
